import Mathlib

/-!
Verification of the gomongoapi HTTP-to-MongoDB bridge.

The repository exposes five read operations (list databases, list
collections, find, count, aggregate) as HTTP handlers over a shared
MongoDB client.  We embed the handler layer shallowly: the Gin context
becomes an explicit `Request` record, the MongoDB client becomes a record
of result-valued functions, and each handler becomes a pure function
returning the HTTP response it would write together with the list of
database calls it issued.  Two source revisions exist for the aggregate
handler; both are embedded (`GoMongoApi.collectionAggregate` for the
latest `gomongoapi` package and `GoMongoApi.Mongoapi.collectionAggregate`
for the earlier `mongoapi` package with explicit pipeline validation).
-/

namespace GoMongoApi

/-- Decoded JSON values, the shallow counterpart of Go's
`interface{}` after JSON unmarshalling. -/
inductive JVal where
  | str (s : String)
  | num (n : Int)
  | boolean (b : Bool)
  | null
  | arr (elems : List JVal)
  | obj (fields : List (String × JVal))

/-- A decoded JSON object, the counterpart of Go's `map[string]interface{}`
and `bson.M`. -/
abbrev JObj := List (String × JVal)

/-- Go map indexing `m[key]`: `none` models the nil zero value returned
for an absent key. -/
def lookupKey : JObj → String → Option JVal
  | [], _ => none
  | (k, v) :: rest, key => if k = key then some v else lookupKey rest key

/-- The ASCII character of a decimal digit. -/
def digitToChar (d : Nat) : Char := Char.ofNat (48 + d)

/-- Inverse of `digitToChar` on ASCII digits. -/
def charToDigit (c : Char) : Option Nat :=
  if 48 ≤ c.toNat ∧ c.toNat ≤ 57 then some (c.toNat - 48) else none

/-- Decimal digit characters of a natural number, most significant first. -/
def natDigits (n : Nat) : List Char :=
  if _h : n < 10 then [digitToChar n]
  else natDigits (n / 10) ++ [digitToChar (n % 10)]
  termination_by n
  decreasing_by exact Nat.div_lt_self (by omega) (by omega)

/-- `strconv.Itoa`: decimal rendering of a Go int.  `NewServer` stores the
configured find limits with it. -/
def itoa (i : Int) : String :=
  if i < 0 then ⟨'-' :: natDigits i.natAbs⟩ else ⟨natDigits i.toNat⟩

/-- Accumulating decimal parse of a digit string; fails on any
non-digit character. -/
def parseDigitsAux : List Char → Nat → Option Nat
  | [], acc => some acc
  | c :: cs, acc =>
    match charToDigit c with
    | none => none
    | some d => parseDigitsAux cs (acc * 10 + d)

/-- Parse a non-empty all-digit character list as a natural number. -/
def parseDigits : List Char → Option Nat
  | [] => none
  | c :: cs => parseDigitsAux (c :: cs) 0

/-- `strconv.Atoi`, used by `collectionFind` on the limit query value:
optional sign followed by at least one decimal digit; anything else is a
parse error (`none`). -/
def atoi (s : String) : Option Int :=
  match s.data with
  | [] => none
  | c :: cs =>
    if c = '+' then (parseDigits cs).map Int.ofNat
    else if c = '-' then (parseDigits cs).map (fun n => -(Int.ofNat n))
    else (parseDigits (c :: cs)).map Int.ofNat

/-- The error text `strconv.Atoi` produces on a syntax error, as
interpolated by the find handler into its HTTP 400 body. -/
def atoiErrMsg (s : String) : String :=
  "strconv.Atoi: parsing \"" ++ s ++ "\": invalid syntax"

/-- HTTP responses a handler writes: `ctx.String`, `ctx.JSON`, or a Go
runtime panic escaping the handler (a failed unchecked type assertion). -/
inductive Response where
  | strResp (status : Nat) (body : String)
  | jsonResp (status : Nat) (body : JVal)
  | panicked (msg : String)

/-- A call issued to the MongoDB client, recorded so that theorems can
speak about which database operations a request triggers. -/
inductive DbCall where
  | listDatabaseNames
  | listCollectionNames (db : String)
  | find (db coll : String) (filter : JObj) (limit : Int)
  | countDocuments (db coll : String) (filter : JObj)
  | aggregate (db coll : String) (pipeline : List JVal)

/-- Outcome of a cursor-returning driver operation: the initial call can
fail, decoding the cursor with `cursor.All` can fail, or all documents
are materialized. -/
inductive QueryOutcome where
  | queryErr (msg : String)
  | decodeErr (msg : String)
  | ok (rows : List JObj)

/-- The MongoDB client, abstracted as the results its operations would
return for the request at hand. -/
structure MongoClient where
  listDatabaseNames : Except String (List String)
  listCollectionNames : String → Except String (List String)
  find : String → String → JObj → Int → QueryOutcome
  countDocuments : String → String → JObj → Except String Int
  aggregate : String → String → List JVal → QueryOutcome

/-- The Go error value `ErrInvalidCustomRouteName` from option.go. -/
inductive OptionErr where
  | errInvalidCustomRouteName

/-- The `Options` struct of option.go (router and Mongo client options
are external collaborators and carry no modelled state). -/
structure Options where
  address : String
  customRouteName : String
  findLimit : Int
  findMaxLimit : Int
  defaultDB : String

/-- `ServerOptions()`: the default option values. -/
def ServerOptions : Options :=
  { address := ":8080"
    customRouteName := "custom"
    findLimit := 1000
    findMaxLimit := 0
    defaultDB := "" }

/-- `Options.SetCustomRouteName`: rejects "/" and "/api" with
`ErrInvalidCustomRouteName`, otherwise stores the name; returns the
updated options together with the Go error value. -/
def SetCustomRouteName (o : Options) (customRouteName : String) :
    Options × Option OptionErr :=
  if customRouteName = "/" ∨ customRouteName = "/api" then
    (o, some OptionErr.errInvalidCustomRouteName)
  else
    ({ o with customRouteName := customRouteName }, none)

/-- The live server struct fields the handlers read (router plumbing is
external).  `findLimit` and `findMaxLimit` are the stringified limits
exactly as `NewServer` stores them; `maxLimit` is the raw integer. -/
structure ServerState where
  address : String
  defaultDB : String
  findLimit : String
  findMaxLimit : String
  maxLimit : Int

/-- `NewServer`: builds the server struct from the options, converting
the limits to strings with `strconv.Itoa`. -/
def NewServer (opts : Options) : ServerState :=
  { address := opts.address
    defaultDB := opts.defaultDB
    findLimit := itoa opts.findLimit
    findMaxLimit := itoa opts.findMaxLimit
    maxLimit := opts.findMaxLimit }

/-- A decoded inbound request: the `database` and `limit` query
parameters as `ctx.GetQuery` sees them (`none` = absent), the `:name`
path parameter (`""` when empty), and the JSON-decoded object body
(`Except.error` carries the bind failure message). -/
structure Request where
  databaseParam : Option String
  limitParam : Option String
  nameParam : String
  body : Except String JObj

/-- The database-resolution prologue inlined at the top of every
collection handler: when no default database is configured the
`database` query parameter is consulted (its absence makes the caller
answer HTTP 400), otherwise the configured default is used
unconditionally. -/
def resolveDBName (defaultDB : String) (databaseParam : Option String) :
    Option String :=
  if defaultDB = "" then databaseParam else some defaultDB

/-- `getDatabases` handler (GET /api/databases): with a configured
default database only that name is reported, without touching the
engine; otherwise the engine's database-name list is returned. -/
def getDatabases (s : ServerState) (client : MongoClient) (_ctx : Request) :
    Response × List DbCall :=
  if s.defaultDB ≠ "" then
    (Response.jsonResp 200 (JVal.obj [("Databases", JVal.arr [JVal.str s.defaultDB])]), [])
  else
    match client.listDatabaseNames with
    | Except.error e =>
        (Response.strResp 500 ("Error getting databases names: " ++ e),
          [DbCall.listDatabaseNames])
    | Except.ok dbNames =>
        (Response.jsonResp 200 (JVal.obj [("Databases", JVal.arr (dbNames.map JVal.str))]),
          [DbCall.listDatabaseNames])

/-- `getCollections` handler (GET /api/collections). -/
def getCollections (s : ServerState) (client : MongoClient) (ctx : Request) :
    Response × List DbCall :=
  match resolveDBName s.defaultDB ctx.databaseParam with
  | none => (Response.strResp 400 "Database name was not passed, one is needed", [])
  | some dbName =>
    match client.listCollectionNames dbName with
    | Except.error e =>
        (Response.strResp 500 ("Error getting collection names: " ++ e),
          [DbCall.listCollectionNames dbName])
    | Except.ok collNames =>
        (Response.jsonResp 200 (JVal.obj [("Collections", JVal.arr (collNames.map JVal.str))]),
          [DbCall.listCollectionNames dbName])

/-- `collectionFind` handler (POST /api/collections/:name/find), latest
revision: validates database, collection name, limit syntax and the
configured maximum limit before running a single find with the decoded
filter body. -/
def collectionFind (s : ServerState) (client : MongoClient) (ctx : Request) :
    Response × List DbCall :=
  match resolveDBName s.defaultDB ctx.databaseParam with
  | none => (Response.strResp 400 "Database name was not passed, one is needed", [])
  | some dbName =>
    if ctx.nameParam = "" then
      (Response.strResp 400 "Collection name was not passed", [])
    else
      let limitString := ctx.limitParam.getD s.findLimit
      match atoi limitString with
      | none =>
          (Response.strResp 400 ("Limit is not an int: " ++ atoiErrMsg limitString), [])
      | some limit =>
        if s.maxLimit ≠ 0 ∧ limit > s.maxLimit then
          (Response.strResp 400 "Passed limit is greater than max limit set by server", [])
        else
          match ctx.body with
          | Except.error e =>
              (Response.strResp 400 ("Error reading body request: " ++ e), [])
          | Except.ok filter =>
            match client.find dbName ctx.nameParam filter limit with
            | QueryOutcome.queryErr e =>
                (Response.strResp 500 ("Error running find: " ++ e),
                  [DbCall.find dbName ctx.nameParam filter limit])
            | QueryOutcome.decodeErr e =>
                (Response.strResp 500 ("Error decoding results: " ++ e),
                  [DbCall.find dbName ctx.nameParam filter limit])
            | QueryOutcome.ok res =>
                (Response.jsonResp 200 (JVal.arr (res.map JVal.obj)),
                  [DbCall.find dbName ctx.nameParam filter limit])

/-- `collectionCount` handler (POST /api/collections/:name/count), latest
revision; its backend-failure message reads "Error running find" exactly
as in the source. -/
def collectionCount (s : ServerState) (client : MongoClient) (ctx : Request) :
    Response × List DbCall :=
  match resolveDBName s.defaultDB ctx.databaseParam with
  | none => (Response.strResp 400 "Database name was not passed, one is needed", [])
  | some dbName =>
    if ctx.nameParam = "" then
      (Response.strResp 400 "Collection name was not passed", [])
    else
      match ctx.body with
      | Except.error e =>
          (Response.strResp 400 ("Error reading body request: " ++ e), [])
      | Except.ok filter =>
        match client.countDocuments dbName ctx.nameParam filter with
        | Except.error e =>
            (Response.strResp 500 ("Error running find: " ++ e),
              [DbCall.countDocuments dbName ctx.nameParam filter])
        | Except.ok count =>
            (Response.jsonResp 200 (JVal.obj [("Count", JVal.num count)]),
              [DbCall.countDocuments dbName ctx.nameParam filter])

/-- `collectionAggregate` handler (POST /api/collections/:name/aggregate),
latest `gomongoapi` revision: the pipeline is extracted with the
unchecked Go type assertion `reqBody["Aggregate"].([]interface{})`, which
panics at runtime whenever the key is absent or its value is not a JSON
array. -/
def collectionAggregate (s : ServerState) (client : MongoClient) (ctx : Request) :
    Response × List DbCall :=
  match resolveDBName s.defaultDB ctx.databaseParam with
  | none => (Response.strResp 400 "Database name was not passed, one is needed", [])
  | some dbName =>
    if ctx.nameParam = "" then
      (Response.strResp 400 "Collection name was not passed", [])
    else
      match ctx.body with
      | Except.error e =>
          (Response.strResp 400 ("Error reading body request: " ++ e), [])
      | Except.ok reqBody =>
        match lookupKey reqBody "Aggregate" with
        | some (JVal.arr pipeLine) =>
          match client.aggregate dbName ctx.nameParam pipeLine with
          | QueryOutcome.queryErr e =>
              (Response.strResp 500 ("Error running aggregate: " ++ e),
                [DbCall.aggregate dbName ctx.nameParam pipeLine])
          | QueryOutcome.decodeErr e =>
              (Response.strResp 500 ("Error decoding results: " ++ e),
                [DbCall.aggregate dbName ctx.nameParam pipeLine])
          | QueryOutcome.ok res =>
              (Response.jsonResp 200 (JVal.arr (res.map JVal.obj)),
                [DbCall.aggregate dbName ctx.nameParam pipeLine])
        | _ =>
            (Response.panicked "interface conversion to []interface \x7b\x7d failed", [])

namespace Mongoapi

/-- Server struct of the earlier `mongoapi` revision (no max-limit
field). -/
structure ServerState where
  address : String
  defaultDB : String
  findLimit : String
  findMaxLimit : String

/-- `collectionAggregate` of the earlier `mongoapi` revision: identical
to the latest one except that the pipeline extraction uses a checked
type assertion and fails fast with HTTP 400 when the `Aggregate` key is
absent or its value is not an array. -/
def collectionAggregate (s : ServerState) (client : MongoClient) (ctx : Request) :
    Response × List DbCall :=
  match resolveDBName s.defaultDB ctx.databaseParam with
  | none => (Response.strResp 400 "Database name was not passed, one is needed", [])
  | some dbName =>
    if ctx.nameParam = "" then
      (Response.strResp 400 "Collection name was not passed", [])
    else
      match ctx.body with
      | Except.error e =>
          (Response.strResp 400 ("Error reading body request: " ++ e), [])
      | Except.ok reqBody =>
        match lookupKey reqBody "Aggregate" with
        | some (JVal.arr pipeLine) =>
          match client.aggregate dbName ctx.nameParam pipeLine with
          | QueryOutcome.queryErr e =>
              (Response.strResp 500 ("Error running aggregate: " ++ e),
                [DbCall.aggregate dbName ctx.nameParam pipeLine])
          | QueryOutcome.decodeErr e =>
              (Response.strResp 500 ("Error decoding results: " ++ e),
                [DbCall.aggregate dbName ctx.nameParam pipeLine])
          | QueryOutcome.ok res =>
              (Response.jsonResp 200 (JVal.arr (res.map JVal.obj)),
                [DbCall.aggregate dbName ctx.nameParam pipeLine])
        | _ =>
            (Response.strResp 400 "Request Body is missing aggregate pipeline", [])

end Mongoapi

/-- A client whose every operation succeeds with empty results; used to
instantiate universally quantified theorems at concrete inputs. -/
def trivClient : MongoClient where
  listDatabaseNames := Except.ok []
  listCollectionNames := fun _ => Except.ok []
  find := fun _ _ _ _ => QueryOutcome.ok []
  countDocuments := fun _ _ _ => Except.ok 0
  aggregate := fun _ _ _ => QueryOutcome.ok []

/-- Server state with fixed database "app" and no maximum limit, as
`NewServer` builds it from the defaults plus `SetDefaultDB("app")`. -/
def appServer : ServerState :=
  { address := ":8080", defaultDB := "app", findLimit := "1000"
    findMaxLimit := "0", maxLimit := 0 }

/-- Server state with fixed database "app" and maximum find limit 10. -/
def cappedServer : ServerState :=
  { address := ":8080", defaultDB := "app", findLimit := "1000"
    findMaxLimit := "10", maxLimit := 10 }

/-- Server state of the earlier `mongoapi` revision with fixed database
"app". -/
def appServerRev1 : Mongoapi.ServerState :=
  { address := ":8080", defaultDB := "app", findLimit := "1000"
    findMaxLimit := "0" }

/-- A request against collection "users" with empty-object JSON body and
no query parameters. -/
def usersReq : Request :=
  { databaseParam := none, limitParam := none, nameParam := "users"
    body := Except.ok [] }

/-- Server state with no configured default database. -/
def noDbServer : ServerState :=
  { address := ":8080", defaultDB := "", findLimit := "1000"
    findMaxLimit := "0", maxLimit := 0 }

/-- A request whose collection-name path parameter is empty. -/
def noNameReq : Request :=
  { databaseParam := none, limitParam := none, nameParam := ""
    body := Except.ok [] }

theorem charToDigit_digitToChar {d : Nat} (hd : d < 10) :
    charToDigit (digitToChar d) = some d := by
  interval_cases d <;> decide

theorem natDigits_ne_nil (n : Nat) : natDigits n ≠ [] := by
  rw [natDigits]
  split
  · simp
  · simp

theorem natDigits_all_digits (n : Nat) :
    ∀ c ∈ natDigits n, ∃ d, d < 10 ∧ c = digitToChar d := by
  induction n using Nat.strong_induction_on with
  | _ n ih =>
    rw [natDigits]
    split
    · next h =>
      intro c hc
      simp only [List.mem_singleton] at hc
      exact ⟨n, h, hc⟩
    · next h =>
      intro c hc
      rcases List.mem_append.mp hc with h1 | h2
      · exact ih (n / 10) (Nat.div_lt_self (by omega) (by omega)) c h1
      · simp only [List.mem_singleton] at h2
        exact ⟨n % 10, Nat.mod_lt _ (by omega), h2⟩

theorem parseDigitsAux_append (xs ys : List Char) (acc : Nat) :
    parseDigitsAux (xs ++ ys) acc =
      match parseDigitsAux xs acc with
      | none => none
      | some a => parseDigitsAux ys a := by
  induction xs generalizing acc with
  | nil => simp [parseDigitsAux]
  | cons c cs ih =>
    simp only [List.cons_append, parseDigitsAux]
    cases charToDigit c with
    | none => rfl
    | some d => exact ih _

theorem parseDigitsAux_natDigits (n : Nat) :
    ∀ acc, parseDigitsAux (natDigits n) acc =
      some (acc * 10 ^ (natDigits n).length + n) := by
  induction n using Nat.strong_induction_on with
  | _ n ih =>
    intro acc
    rw [natDigits]
    split
    · next h =>
      simp [parseDigitsAux, charToDigit_digitToChar h]
    · next h =>
      rw [parseDigitsAux_append, ih (n / 10) (Nat.div_lt_self (by omega) (by omega)) acc]
      simp only [parseDigitsAux, charToDigit_digitToChar (Nat.mod_lt n (by omega)),
        List.length_append, List.length_singleton]
      congr 1
      have hdm : n / 10 * 10 + n % 10 = n := by omega
      calc (acc * 10 ^ (natDigits (n / 10)).length + n / 10) * 10 + n % 10
          = acc * 10 ^ (natDigits (n / 10)).length * 10 + (n / 10 * 10 + n % 10) := by ring
        _ = acc * 10 ^ ((natDigits (n / 10)).length + 1) + n := by rw [hdm, pow_succ]; ring

theorem parseDigits_natDigits (n : Nat) : parseDigits (natDigits n) = some n := by
  have hne := natDigits_ne_nil n
  rcases hd : natDigits n with _ | ⟨c, cs⟩
  · exact absurd hd hne
  · have := parseDigitsAux_natDigits n 0
    rw [hd] at this
    simpa [parseDigits] using this

/-- Round trip: the limit string stored by `NewServer` parses back to the
configured integer, for every Go int. -/
theorem atoi_itoa (i : Int) : atoi (itoa i) = some i := by
  by_cases hneg : i < 0
  · simp only [itoa, if_pos hneg, atoi]
    have hne := natDigits_ne_nil i.natAbs
    rcases hd : natDigits i.natAbs with _ | ⟨c, cs⟩
    · exact absurd hd hne
    · simp only [hd, List.cons.injEq, reduceIte]
      have hp : parseDigits (c :: cs) = some i.natAbs := by
        rw [← hd]; exact parseDigits_natDigits _
      have hsplit : parseDigitsAux (c :: cs) 0 = some i.natAbs := by
        simpa [parseDigits] using hp
      simp only [parseDigits, hsplit, Option.map_some', Option.some.injEq,
        Int.ofNat_eq_natCast]
      rw [if_neg (show ¬('-' : Char) = '+' by decide)]
      simp only [Option.some.injEq]
      omega
  · simp only [itoa, if_neg hneg]
    have hne := natDigits_ne_nil i.toNat
    rcases hd : natDigits i.toNat with _ | ⟨c, cs⟩
    · exact absurd hd hne
    · have hcdig : ∃ d, d < 10 ∧ c = digitToChar d := by
        apply natDigits_all_digits i.toNat
        rw [hd]; exact List.mem_cons_self _ _
      rcases hcdig with ⟨d, hdlt, hcd⟩
      have h48 : (digitToChar d).toNat = 48 + d := by
        interval_cases d <;> decide
      have hcplus : c ≠ '+' := by
        subst hcd
        intro hcontra
        rw [hcontra] at h48
        have hplus : ('+' : Char).toNat = 43 := by decide
        rw [hplus] at h48
        omega
      have hcminus : c ≠ '-' := by
        subst hcd
        intro hcontra
        rw [hcontra] at h48
        have hminus : ('-' : Char).toNat = 45 := by decide
        rw [hminus] at h48
        omega
      simp only [atoi, hd, if_neg hcplus, if_neg hcminus]
      have hp : parseDigits (c :: cs) = some i.toNat := by
        rw [← hd]; exact parseDigits_natDigits _
      simp only [hp, Option.map_some', Option.some.injEq, Int.ofNat_eq_natCast]
      omega

theorem string_data_append (s t : String) : (s ++ t).data = s.data ++ t.data := by
  cases s; cases t; rfl

/-- Two strings whose character lists start differently are different. -/
theorem ne_of_data_head {s t : String} (h : s.data.head? ≠ t.data.head?) :
    s ≠ t :=
  fun he => h (congrArg (fun x => x.data.head?) he)

theorem append_data_head {p : String} {c : Char} (hp : p.data.head? = some c)
    (e : String) : (p ++ e).data.head? = some c := by
  rw [string_data_append]
  cases hpd : p.data with
  | nil => rw [hpd] at hp; exact absurd hp (by simp)
  | cons a as =>
    rw [hpd] at hp
    simp only [List.head?_cons, Option.some.injEq] at hp
    subst hp
    rfl

/-- C1: the claim states that an aggregate body which decodes but lacks
the `Aggregate` key yields HTTP 400 "Request Body is missing aggregate
pipeline" and never a runtime fault.  The latest revision instead panics
on such a body (its unchecked type assertion contradicts the handler's
own comment and the validated earlier revision, which returns the clean
400 the spec intends). -/
theorem aggregate_missing_pipeline_code_bug :
    (collectionAggregate appServer trivClient usersReq
      = (Response.panicked "interface conversion to []interface \x7b\x7d failed", [])) ∧
    (Mongoapi.collectionAggregate appServerRev1 trivClient usersReq
      = (Response.strResp 400 "Request Body is missing aggregate pipeline", [])) :=
  ⟨rfl, rfl⟩

/-- C3: with a configured default database, the `database` query
parameter is ignored entirely: two otherwise-identical requests to any
of the five operations produce identical results regardless of its
presence or value. -/
theorem database_param_ignored (s : ServerState) (client : MongoClient)
    (ctx : Request) (d1 d2 : Option String) (hdb : s.defaultDB ≠ "") :
    getDatabases s client { ctx with databaseParam := d1 }
        = getDatabases s client { ctx with databaseParam := d2 } ∧
    getCollections s client { ctx with databaseParam := d1 }
        = getCollections s client { ctx with databaseParam := d2 } ∧
    collectionFind s client { ctx with databaseParam := d1 }
        = collectionFind s client { ctx with databaseParam := d2 } ∧
    collectionCount s client { ctx with databaseParam := d1 }
        = collectionCount s client { ctx with databaseParam := d2 } ∧
    collectionAggregate s client { ctx with databaseParam := d1 }
        = collectionAggregate s client { ctx with databaseParam := d2 } := by
  have hres : ∀ d : Option String, resolveDBName s.defaultDB d = some s.defaultDB := by
    intro d
    simp [resolveDBName, hdb]
  refine ⟨rfl, ?_, ?_, ?_, ?_⟩ <;>
    simp only [getCollections, collectionFind, collectionCount, collectionAggregate, hres]

theorem database_param_ignored_witness :
    collectionFind appServer trivClient { usersReq with databaseParam := some "other" }
      = collectionFind appServer trivClient { usersReq with databaseParam := none } :=
  (database_param_ignored appServer trivClient usersReq (some "other") none (by decide)).2.2.1

/-- C4: with no configured default database and no `database` query
parameter, list-collections, find, count and aggregate all answer
HTTP 400 "Database name was not passed, one is needed" and issue no
database call. -/
theorem missing_database_param_rejected (s : ServerState) (client : MongoClient)
    (ctx : Request) (hdef : s.defaultDB = "") (hparam : ctx.databaseParam = none) :
    getCollections s client ctx
        = (Response.strResp 400 "Database name was not passed, one is needed", []) ∧
    collectionFind s client ctx
        = (Response.strResp 400 "Database name was not passed, one is needed", []) ∧
    collectionCount s client ctx
        = (Response.strResp 400 "Database name was not passed, one is needed", []) ∧
    collectionAggregate s client ctx
        = (Response.strResp 400 "Database name was not passed, one is needed", []) := by
  have hres : resolveDBName s.defaultDB ctx.databaseParam = none := by
    simp [resolveDBName, hdef, hparam]
  refine ⟨?_, ?_, ?_, ?_⟩ <;>
    simp [getCollections, collectionFind, collectionCount, collectionAggregate, hres]

theorem missing_database_param_rejected_witness :
    collectionFind noDbServer trivClient usersReq
      = (Response.strResp 400 "Database name was not passed, one is needed", []) :=
  (missing_database_param_rejected noDbServer trivClient usersReq rfl rfl).2.1

/-- C5: with a configured default database, list-databases always
answers exactly that one name without querying the engine, regardless of
the client; otherwise it returns the engine's full database-name list
under the "Databases" key. -/
theorem getDatabases_spec (s : ServerState) (client : MongoClient) (ctx : Request) :
    (s.defaultDB ≠ "" →
      getDatabases s client ctx
        = (Response.jsonResp 200 (JVal.obj [("Databases", JVal.arr [JVal.str s.defaultDB])]),
            [])) ∧
    (s.defaultDB = "" → ∀ dbNames, client.listDatabaseNames = Except.ok dbNames →
      getDatabases s client ctx
        = (Response.jsonResp 200 (JVal.obj [("Databases", JVal.arr (dbNames.map JVal.str))]),
            [DbCall.listDatabaseNames])) := by
  constructor
  · intro h
    simp [getDatabases, h]
  · intro h dbNames hls
    simp [getDatabases, h, hls]

theorem getDatabases_spec_witness :
    getDatabases appServer trivClient usersReq
      = (Response.jsonResp 200 (JVal.obj [("Databases", JVal.arr [JVal.str "app"])]), []) :=
  (getDatabases_spec appServer trivClient usersReq).1 (by decide)

/-- C7: `SetCustomRouteName` returns `ErrInvalidCustomRouteName` and
leaves the options unchanged exactly when the argument is "/" or
"/api"; every other string is stored and nil is returned. -/
theorem setCustomRouteName_spec (o : Options) (customRouteName : String) :
    (customRouteName = "/" ∨ customRouteName = "/api" →
      SetCustomRouteName o customRouteName
        = (o, some OptionErr.errInvalidCustomRouteName)) ∧
    (customRouteName ≠ "/" → customRouteName ≠ "/api" →
      SetCustomRouteName o customRouteName
        = ({ o with customRouteName := customRouteName }, none)) := by
  constructor
  · intro h
    simp only [SetCustomRouteName, if_pos h]
  · intro h1 h2
    simp only [SetCustomRouteName]
    rw [if_neg]
    rintro (h | h)
    exacts [h1 h, h2 h]

theorem setCustomRouteName_spec_witness :
    SetCustomRouteName ServerOptions "/api"
        = (ServerOptions, some OptionErr.errInvalidCustomRouteName) ∧
    SetCustomRouteName ServerOptions "/custom"
        = ({ ServerOptions with customRouteName := "/custom" }, none) :=
  ⟨(setCustomRouteName_spec ServerOptions "/api").1 (Or.inr rfl),
   (setCustomRouteName_spec ServerOptions "/custom").2 (by decide) (by decide)⟩

/-- C9: an empty collection-name path parameter makes find, count and
aggregate answer HTTP 400 "Collection name was not passed" without any
database call (for any request whose database name resolves). -/
theorem empty_collection_name_rejected (s : ServerState) (client : MongoClient)
    (ctx : Request) (dbName : String)
    (hdb : resolveDBName s.defaultDB ctx.databaseParam = some dbName)
    (hcoll : ctx.nameParam = "") :
    collectionFind s client ctx
        = (Response.strResp 400 "Collection name was not passed", []) ∧
    collectionCount s client ctx
        = (Response.strResp 400 "Collection name was not passed", []) ∧
    collectionAggregate s client ctx
        = (Response.strResp 400 "Collection name was not passed", []) := by
  refine ⟨?_, ?_, ?_⟩ <;>
    simp [collectionFind, collectionCount, collectionAggregate, hdb, hcoll]

theorem empty_collection_name_rejected_witness :
    collectionFind appServer trivClient noNameReq
      = (Response.strResp 400 "Collection name was not passed", []) :=
  (empty_collection_name_rejected appServer trivClient noNameReq "app" rfl rfl).1

theorem bodyErrMsg_ne_limitMsg (e : String) :
    "Error reading body request: " ++ e
      ≠ "Passed limit is greater than max limit set by server" := by
  apply ne_of_data_head
  have hp : ("Error reading body request: ").data.head? = some 'E' := by decide
  rw [append_data_head hp]
  decide

/-- C2: when the configured maximum limit is nonzero, a parsed limit
strictly greater than it is rejected with HTTP 400 "Passed limit is
greater than max limit set by server" and no query is issued, while a
limit equal to the maximum is never rejected by that check. -/
theorem find_max_limit_policy (s : ServerState) (client : MongoClient) (ctx : Request)
    (dbName : String) (l : Int)
    (hdb : resolveDBName s.defaultDB ctx.databaseParam = some dbName)
    (hcoll : ctx.nameParam ≠ "")
    (hl : atoi (ctx.limitParam.getD s.findLimit) = some l)
    (hmax : s.maxLimit ≠ 0) :
    (l > s.maxLimit →
      collectionFind s client ctx
        = (Response.strResp 400 "Passed limit is greater than max limit set by server",
            [])) ∧
    (l = s.maxLimit →
      (collectionFind s client ctx).1
        ≠ Response.strResp 400 "Passed limit is greater than max limit set by server") := by
  constructor
  · intro hgt
    have hcond : s.maxLimit ≠ 0 ∧ l > s.maxLimit := ⟨hmax, hgt⟩
    simp [collectionFind, hdb, hcoll, hl, hcond]
  · intro heq
    have hcond : ¬(s.maxLimit ≠ 0 ∧ l > s.maxLimit) := by
      rintro ⟨-, hgt⟩
      omega
    rcases hb : ctx.body with e | filter
    · simp [collectionFind, hdb, hcoll, hl, hcond, hb, Response.strResp.injEq,
        bodyErrMsg_ne_limitMsg]
    · rcases hf : client.find dbName ctx.nameParam filter l with e | e | rows <;>
        simp [collectionFind, hdb, hcoll, hl, hcond, hb, hf]

theorem find_max_limit_policy_witness :
    collectionFind cappedServer trivClient { usersReq with limitParam := some "11" }
      = (Response.strResp 400 "Passed limit is greater than max limit set by server", []) :=
  (find_max_limit_policy cappedServer trivClient { usersReq with limitParam := some "11" }
    "app" 11 rfl (by decide) rfl (by decide)).1 (by decide)

/-- C6: for find, an omitted `limit` query parameter makes the query use
the configured default limit, and a present but non-integer limit yields
HTTP 400 with no query issued. -/
theorem find_limit_default_and_parse (opts : Options) (client : MongoClient)
    (ctx : Request) (dbName : String)
    (hdb : resolveDBName (NewServer opts).defaultDB ctx.databaseParam = some dbName)
    (hcoll : ctx.nameParam ≠ "") :
    (ctx.limitParam = none →
      (opts.findMaxLimit = 0 ∨ opts.findLimit ≤ opts.findMaxLimit) →
      ∀ filter, ctx.body = Except.ok filter →
        (collectionFind (NewServer opts) client ctx).2
          = [DbCall.find dbName ctx.nameParam filter opts.findLimit]) ∧
    (∀ ls, ctx.limitParam = some ls → atoi ls = none →
      collectionFind (NewServer opts) client ctx
        = (Response.strResp 400 ("Limit is not an int: " ++ atoiErrMsg ls), [])) := by
  have hsrvLim : (NewServer opts).findLimit = itoa opts.findLimit := rfl
  have hsrvMax : (NewServer opts).maxLimit = opts.findMaxLimit := rfl
  constructor
  · intro hnone hmax filter hb
    have hlim : atoi (ctx.limitParam.getD (NewServer opts).findLimit)
        = some opts.findLimit := by
      rw [hnone, Option.getD_none, hsrvLim]
      exact atoi_itoa opts.findLimit
    have hcond : ¬((NewServer opts).maxLimit ≠ 0
        ∧ opts.findLimit > (NewServer opts).maxLimit) := by
      rw [hsrvMax]
      rcases hmax with h | h
      · rintro ⟨h1, -⟩
        exact h1 h
      · rintro ⟨-, h2⟩
        omega
    rcases hf : client.find dbName ctx.nameParam filter opts.findLimit with e | e | rows <;>
      simp [collectionFind, hdb, hcoll, hlim, hb, hcond, hf]
  · intro ls hls hbad
    simp [collectionFind, hdb, hcoll, hls, hbad]

theorem find_limit_default_and_parse_witness :
    (collectionFind (NewServer { ServerOptions with defaultDB := "app" })
        trivClient usersReq).2
      = [DbCall.find "app" "users" [] 1000] :=
  (find_limit_default_and_parse { ServerOptions with defaultDB := "app" } trivClient
    usersReq "app" rfl (by decide)).1 rfl (Or.inl rfl) [] rfl

/-- C8: with a resolved database, non-empty collection and well-formed
filter body, count issues exactly one count operation with that filter
and answers HTTP 200 with a Count document; a malformed body yields
HTTP 400 and a failed count HTTP 500. -/
theorem collectionCount_spec (s : ServerState) (client : MongoClient) (ctx : Request)
    (dbName : String)
    (hdb : resolveDBName s.defaultDB ctx.databaseParam = some dbName)
    (hcoll : ctx.nameParam ≠ "") :
    (∀ e, ctx.body = Except.error e →
      collectionCount s client ctx
        = (Response.strResp 400 ("Error reading body request: " ++ e), [])) ∧
    (∀ filter n, ctx.body = Except.ok filter →
      client.countDocuments dbName ctx.nameParam filter = Except.ok n →
      collectionCount s client ctx
        = (Response.jsonResp 200 (JVal.obj [("Count", JVal.num n)]),
            [DbCall.countDocuments dbName ctx.nameParam filter])) ∧
    (∀ filter e, ctx.body = Except.ok filter →
      client.countDocuments dbName ctx.nameParam filter = Except.error e →
      collectionCount s client ctx
        = (Response.strResp 500 ("Error running find: " ++ e),
            [DbCall.countDocuments dbName ctx.nameParam filter])) := by
  refine ⟨?_, ?_, ?_⟩
  · intro e hb
    simp [collectionCount, hdb, hcoll, hb]
  · intro filter n hb hc
    simp [collectionCount, hdb, hcoll, hb, hc]
  · intro filter e hb hc
    simp [collectionCount, hdb, hcoll, hb, hc]

theorem collectionCount_spec_witness :
    collectionCount appServer trivClient usersReq
      = (Response.jsonResp 200 (JVal.obj [("Count", JVal.num 0)]),
          [DbCall.countDocuments "app" "users" []]) :=
  (collectionCount_spec appServer trivClient usersReq "app" rfl (by decide)).2.1
    [] 0 rfl rfl

/-- C10 counterexample: with configured maximum limit -1 (a nonzero
value) the parsed limit 0 is rejected by the maximum-limit check, so
zero and negative limits do not always pass it. -/
theorem nonpositive_limit_counterexample :
    collectionFind
      { address := ":8080", defaultDB := "app", findLimit := "1000"
        findMaxLimit := "-1", maxLimit := -1 }
      trivClient { usersReq with limitParam := some "0" }
      = (Response.strResp 400 "Passed limit is greater than max limit set by server", []) :=
  rfl

/-- C10 (amended): a find request with an explicit limit parsing to zero
or a negative integer keeps the parsed value as the query limit (the
configured default is not substituted), and such a value passes the
maximum-limit check whenever the configured maximum is nonnegative,
since only values strictly greater than a nonzero maximum are
rejected. -/
theorem nonpositive_limit_uses_parsed_value (s : ServerState) (client : MongoClient)
    (ctx : Request) (dbName : String) (ls : String) (l : Int) (filter : JObj)
    (hdb : resolveDBName s.defaultDB ctx.databaseParam = some dbName)
    (hcoll : ctx.nameParam ≠ "")
    (hls : ctx.limitParam = some ls)
    (hl : atoi ls = some l)
    (hle : l ≤ 0)
    (hmax : 0 ≤ s.maxLimit)
    (hbody : ctx.body = Except.ok filter) :
    (collectionFind s client ctx).2 = [DbCall.find dbName ctx.nameParam filter l] := by
  have hcond : ¬(s.maxLimit ≠ 0 ∧ l > s.maxLimit) := by
    rintro ⟨h1, h2⟩
    omega
  rcases hf : client.find dbName ctx.nameParam filter l with e | e | rows <;>
    simp [collectionFind, hdb, hcoll, hls, hl, hbody, hcond, hf]

theorem nonpositive_limit_uses_parsed_value_witness :
    (collectionFind cappedServer trivClient
        { usersReq with limitParam := some "-3" }).2
      = [DbCall.find "app" "users" [] (-3)] :=
  (nonpositive_limit_uses_parsed_value cappedServer trivClient
    { usersReq with limitParam := some "-3" } "app" "-3" (-3) [] rfl (by decide)
    rfl rfl (by decide) (by decide) rfl)

end GoMongoApi
